import Mathlib

/-! PersonalBrain chat widget (`static/chat.js`)

A shallow embedding of the browser-side chat script.  The script owns three
DOM elements (the form, the text input and the `#messages` container), one
helper `addMessage`, a `submit` listener (an `async` function) and a `keydown`
listener.

Modelling decisions:

* the children of `#messages` are a `List Message`, document order = list
  order; they are taken to be the only elements of the document that carry
  the class `message`, so `document.querySelector('.message.loading')` is the
  first list entry whose class is `loading`;
* the `async` submit listener is split at its `await`s: `submitListener` is
  the part that runs synchronously when the event is dispatched (up to and
  including the call of `fetch`), `submitResume` is the part that runs when
  the request has settled (`fetch` rejected, `res.json()` rejected, or
  `res.json()` fulfilled with a parsed value).  Nothing is mutated between
  the two awaits, so one settle step is faithful;
* every observable effect is also written to a ghost `trace`, which records
  the order of effects;
* JavaScript strings are Lean `String`s (lone surrogates are not
  representable); parsed numbers are kept as the two observations the script
  can make of them (falsiness and `Number::toString` text), floating point
  itself is not modelled.
-/

namespace PersonalBrain

/-! ## Data model -/

/-- The second class name given to a message `div` (`message ${cls}`); the
script only ever passes these three. -/
inductive Role where
  | user
  | bot
  | loading
  deriving DecidableEq, Repr

/-- One child `div` of `#messages`: its `textContent` and its class. -/
structure Message where
  text : String
  cls : Role
  deriving DecidableEq, Repr

/-- The arguments of one `fetch(url, {method, headers, body})` call. -/
structure Request where
  url : String
  method : String
  headers : List (String × String)
  body : String
  deriving DecidableEq, Repr

/-- The value a rejected promise or a thrown exception carries, as far as
`console.error` shows it. -/
structure Failure where
  detail : String
  deriving DecidableEq, Repr

/-- Observable effects, in the order the script performs them. -/
inductive Effect where
  | appendChild (m : Message)
  | scrollToBottom
  | setInputValue (v : String)
  | removeLoading
  | fetch (r : Request)
  | consoleError (err : Failure)
  deriving DecidableEq, Repr

/-- The widget state: the children of `#messages`, `input.value`, the requests
that have been issued and have not settled yet, what was written to the
console, and the ghost trace of effects. -/
structure Widget where
  messages : List Message
  inputValue : String
  inFlight : List Request
  console : List Failure
  trace : List Effect
  deriving DecidableEq, Repr

/-! ## `String.prototype.trim` -/

/-- ECMAScript `WhiteSpace` and `LineTerminator` code points, the ones
`String.prototype.trim` strips. -/
def isJSWhiteSpace (c : Char) : Bool :=
  let n := c.toNat
  n == 0x09 || n == 0x0A || n == 0x0B || n == 0x0C || n == 0x0D || n == 0x20 ||
  n == 0xA0 || n == 0x1680 || (0x2000 ≤ n && n ≤ 0x200A) || n == 0x2028 ||
  n == 0x2029 || n == 0x202F || n == 0x205F || n == 0x3000 || n == 0xFEFF

/-- Strip leading white space. -/
def trimStartChars (cs : List Char) : List Char :=
  cs.dropWhile isJSWhiteSpace

/-- Strip trailing white space. -/
def trimEndChars (cs : List Char) : List Char :=
  (cs.reverse.dropWhile isJSWhiteSpace).reverse

/-- The method `String.prototype.trim`. -/
def jsTrim (s : String) : String :=
  ⟨trimEndChars (trimStartChars s.data)⟩

/-! ## `JSON.stringify({ question: q })` -/

/-- One lower-case hexadecimal digit. -/
def hexDigit (n : Nat) : Char :=
  if n < 10 then Char.ofNat (48 + n) else Char.ofNat (87 + n)

/-- ECMAScript `QuoteJSONString`, per code point: the short escapes, `\u00xx`
for the other control characters, everything else verbatim. -/
def quoteJSONChar (c : Char) : List Char :=
  let n := c.toNat
  if n == 0x08 then ['\\', 'b']
  else if n == 0x09 then ['\\', 't']
  else if n == 0x0A then ['\\', 'n']
  else if n == 0x0C then ['\\', 'f']
  else if n == 0x0D then ['\\', 'r']
  else if n == 0x22 then ['\\', '"']
  else if n == 0x5C then ['\\', '\\']
  else if n < 0x20 then ['\\', 'u', '0', '0', hexDigit (n / 16), hexDigit (n % 16)]
  else [c]

/-- ECMAScript `QuoteJSONString`. -/
def quoteJSONString (s : String) : String :=
  ⟨'"' :: (s.data.flatMap quoteJSONChar ++ ['"'])⟩

/-- `JSON.stringify({ question: q })`: an object with the single property
`question`. -/
def stringifyQuestion (q : String) : String :=
  "\x7b\"question\":" ++ quoteJSONString q ++ "\x7d"

/-! ## Reading the request body back

The receiving side of the body: the JSON grammar (RFC 8259) for a string
literal and for an object whose members are all strings, written without
insignificant white space.  It is used to say which object a body denotes.
Escapes of surrogate code units are outside the model. -/

/-- The value of one hexadecimal digit. -/
def hexValue (c : Char) : Option Nat :=
  let n := c.toNat
  if 48 ≤ n ∧ n ≤ 57 then some (n - 48)
  else if 97 ≤ n ∧ n ≤ 102 then some (n - 87)
  else if 65 ≤ n ∧ n ≤ 70 then some (n - 55)
  else none

/-- The character a one-letter JSON escape stands for
(`b t n f r`, the quotation mark, the reverse solidus, the solidus). -/
def unescapeChar (e : Char) : Option Char :=
  let n := e.toNat
  if n == 0x62 then some (Char.ofNat 0x08)
  else if n == 0x74 then some (Char.ofNat 0x09)
  else if n == 0x6E then some (Char.ofNat 0x0A)
  else if n == 0x66 then some (Char.ofNat 0x0C)
  else if n == 0x72 then some (Char.ofNat 0x0D)
  else if n == 0x22 then some (Char.ofNat 0x22)
  else if n == 0x5C then some (Char.ofNat 0x5C)
  else if n == 0x2F then some (Char.ofNat 0x2F)
  else none

/-- Read a JSON string literal whose opening quotation mark has been consumed:
the decoded characters up to the first unescaped quotation mark, and the
input after it.  A raw control character, an unknown escape or a missing
closing quotation mark is an error. -/
def decodeJSONChars : List Char → Option (List Char × List Char)
  | [] => none
  | c :: rest =>
    if c.toNat = 0x22 then some ([], rest)
    else if c.toNat = 0x5C then
      match rest with
      | [] => none
      | e :: rest2 =>
        if e.toNat = 0x75 then
          match rest2 with
          | a :: b :: c2 :: d :: rest3 =>
            match hexValue a, hexValue b, hexValue c2, hexValue d, decodeJSONChars rest3 with
            | some x3, some x2, some x1, some x0, some (cs, r) =>
              some (Char.ofNat (((x3 * 16 + x2) * 16 + x1) * 16 + x0) :: cs, r)
            | _, _, _, _, _ => none
          | _ => none
        else
          match unescapeChar e, decodeJSONChars rest2 with
          | some x, some (cs, r) => some (x :: cs, r)
          | _, _ => none
    else if c.toNat < 0x20 then none
    else
      match decodeJSONChars rest with
      | some (cs, r) => some (c :: cs, r)
      | none => none

/-- Read the members `"name":"value"` of an object, separated by commas, up to
and including the closing brace, which must end the input.  The first
argument bounds the number of members. -/
def parseMembers : Nat → List Char → Option (List (String × String))
  | 0, _ => none
  | fuel + 1, cs =>
    match cs with
    | [] => none
    | c :: cs1 =>
      if c.toNat = 0x22 then
        match decodeJSONChars cs1 with
        | none => none
        | some (k, r1) =>
          match r1 with
          | c1 :: c2 :: r2 =>
            if c1.toNat = 0x3A ∧ c2.toNat = 0x22 then
              match decodeJSONChars r2 with
              | none => none
              | some (v, r3) =>
                match r3 with
                | [] => none
                | c3 :: r4 =>
                  if c3.toNat = 0x7D then
                    (if r4 = [] then some [(⟨k⟩, ⟨v⟩)] else none)
                  else if c3.toNat = 0x2C then
                    match parseMembers fuel r4 with
                    | some ms => some ((⟨k⟩, ⟨v⟩) :: ms)
                    | none => none
                  else none
            else none
          | _ => none
      else none

/-- Read a whole body as an object of string members: all its members, in
order, or `none` when the body is not such an object. -/
def parseStringObject (s : String) : Option (List (String × String)) :=
  match s.data with
  | [] => none
  | c :: cs =>
    if c.toNat = 0x7B then
      (if cs = [Char.ofNat 0x7D] then some [] else parseMembers cs.length cs)
    else none

/-! ## The script -/

/-- `addMessage(text, cls)`: create a `div` with class `message ${cls}` and
text `text`, append it to `#messages`, scroll `#messages` to the bottom.
(The default `cls='bot'` is never used: every call passes `cls`.) -/
def addMessage (text : String) (cls : Role) (w : Widget) : Widget :=
  { w with
    messages := w.messages ++ [⟨text, cls⟩]
    trace := w.trace ++ [Effect.appendChild ⟨text, cls⟩, Effect.scrollToBottom] }

/-- `input.value = v`. -/
def setInputValue (v : String) (w : Widget) : Widget :=
  { w with inputValue := v, trace := w.trace ++ [Effect.setInputValue v] }

/-- The request the submit listener builds for the question `q`. -/
def chatRequest (q : String) : Request :=
  { url := "/api/chat"
    method := "POST"
    headers := [("Content-Type", "application/json")]
    body := stringifyQuestion q }

/-- `fetch(...)`: the request is issued; it stays in flight until it
settles. -/
def issueFetch (r : Request) (w : Widget) : Widget :=
  { w with inFlight := w.inFlight ++ [r], trace := w.trace ++ [Effect.fetch r] }

/-- The submit listener up to its first `await`:
`q = input.value.trim(); if(!q) return; addMessage(q,'user'); input.value='';
addMessage('Thinking...','loading'); fetch('/api/chat', ...)`. -/
def submitListener (w : Widget) : Widget :=
  let q := jsTrim w.inputValue
  if q = "" then w
  else
    issueFetch (chatRequest q)
      (addMessage "Thinking..." Role.loading
        (setInputValue "" (addMessage q Role.user w)))

/-! ## The parsed response -/

/-- A parsed JSON number as the script can observe it: whether it is `0` or
`-0` (the only falsy numbers `JSON.parse` yields) and its `Number::toString`
text. -/
structure JSNumber where
  isZero : Bool
  text : String
  deriving DecidableEq, Repr

/-- What `res.json()` can fulfil with.  The fields of an object are kept in
source order; as in `JSON.parse`, a later duplicate name overrides an earlier
one. -/
inductive Json where
  | null
  | bool (b : Bool)
  | num (n : JSNumber)
  | str (s : String)
  | arr (items : List Json)
  | obj (fields : List (String × Json))

/-- How one request settles: `fetch` rejects, `res.json()` rejects, or
`res.json()` fulfils with the parsed body.  (The script never looks at the
HTTP status.) -/
inductive Outcome where
  | rejected (err : Failure)
  | unparsable (err : Failure)
  | parsed (data : Json)

/-- The own property `k` of a parsed object, `none` for `undefined`. -/
def ownProp (k : String) : List (String × Json) → Option Json
  | [] => none
  | (k1, v) :: rest =>
    match ownProp k rest with
    | some v2 => some v2
    | none => if k1 = k then some v else none

/-- Whether a parsed object has an own property `k`. -/
def hasOwn (k : String) : List (String × Json) → Bool
  | [] => false
  | (k1, _) :: rest => k1 == k || hasOwn k rest

/-- The `TypeError` of reading a property of `null`. -/
def nullPropertyError (k : String) : Failure :=
  ⟨"TypeError: Cannot read properties of null (reading '" ++ k ++ "')"⟩

/-- The `TypeError` of `OrdinaryToPrimitive` when neither `toString` nor
`valueOf` yields a primitive. -/
def toPrimitiveError : Failure :=
  ⟨"TypeError: Cannot convert object to primitive value"⟩

/-- The property read `data.k` for a name `k` that no built-in prototype
defines (`error`, `answer`): it throws on `null`, is the own property of an
object, and `undefined` on every other value. -/
def getProp (data : Json) (k : String) : Except Failure (Option Json) :=
  match data with
  | Json.null => throw (nullPropertyError k)
  | Json.obj fields => pure (ownProp k fields)
  | _ => pure none

/-- ECMAScript `ToBoolean` on the result of a property read. -/
def toBoolean : Option Json → Bool
  | none => false
  | some Json.null => false
  | some (Json.bool b) => b
  | some (Json.num n) => !n.isZero
  | some (Json.str s) => s != ""
  | some (Json.arr _) => true
  | some (Json.obj _) => true

mutual
/-- ECMAScript `ToString` on a parsed value.  A parsed object has no callable
own property, so `OrdinaryToPrimitive` ends in `Object.prototype.toString`
unless an own `toString` property shadows it, in which case it throws; an
array goes through `Array.prototype.join`. -/
def jsToString : Json → Except Failure String
  | Json.null => pure "null"
  | Json.bool b => pure (if b then "true" else "false")
  | Json.num n => pure n.text
  | Json.str s => pure s
  | Json.arr items => jsJoin items
  | Json.obj fields =>
    if hasOwn "toString" fields then throw toPrimitiveError
    else pure "[object Object]"
/-- The method `Array.prototype.join` with the separator `,`: `null` elements
give the empty string. -/
def jsJoin : List Json → Except Failure String
  | [] => pure ""
  | x :: rest => do
    let a ← (match x with
      | Json.null => pure ""
      | _ => jsToString x)
    match rest with
    | [] => pure a
    | _ :: _ => do
      let b ← jsJoin rest
      pure (a ++ "," ++ b)
end

/-- The string concatenation `s + v`. -/
def jsConcat (s : String) : Option Json → Except Failure String
  | none => pure (s ++ "undefined")
  | some v => do
    let t ← jsToString v
    pure (s ++ t)

/-- The conversion the setter of `textContent` applies to its argument
(a nullable `DOMString`): `undefined` and `null` give the empty text. -/
def toTextContent : Option Json → Except Failure String
  | none => pure ""
  | some Json.null => pure ""
  | some v => jsToString v

/-! ## Settling a request -/

/-- Whether a message is a loading placeholder (matches `.message.loading`). -/
def isLoading (m : Message) : Bool :=
  m.cls == Role.loading

/-- The list without its first loading placeholder. -/
def removeFirstLoading : List Message → List Message
  | [] => []
  | m :: rest => if isLoading m then rest else m :: removeFirstLoading rest

/-- `const loading = document.querySelector('.message.loading');
if(loading) loading.remove();` -/
def removeLoading (w : Widget) : Widget :=
  if w.messages.any isLoading then
    { w with
      messages := removeFirstLoading w.messages
      trace := w.trace ++ [Effect.removeLoading] }
  else w

/-- `console.error(err)`. -/
def consoleError (err : Failure) (w : Widget) : Widget :=
  { w with console := w.console ++ [err], trace := w.trace ++ [Effect.consoleError err] }

/-- The fixed text of the `catch` block. -/
def networkErrorText : String :=
  "Network error. See console for details."

/-- The `catch(err)` block. -/
def catchBlock (err : Failure) (w : Widget) : Widget :=
  consoleError err (addMessage networkErrorText Role.bot (removeLoading w))

/-- The end of the `try` block:
`if(data.error) addMessage('Error: ' + data.error, 'bot');
else addMessage(data.answer, 'bot');`.
Every point that can throw lies before the `appendChild` of `addMessage`, so
a throw leaves the widget as it was. -/
def renderPayload (data : Json) (w : Widget) : Except Failure Widget := do
  let err ← getProp data "error"
  if toBoolean err then
    let t ← jsConcat "Error: " err
    pure (addMessage t Role.bot w)
  else
    let ans ← getProp data "answer"
    let t ← toTextContent ans
    pure (addMessage t Role.bot w)

/-- The submit listener after its awaits.  A rejection of `fetch` or of
`res.json()` enters the `catch` block directly; otherwise the loading
placeholder is removed and the payload rendered, and an exception thrown
there enters the `catch` block too. -/
def submitResume (o : Outcome) (w : Widget) : Widget :=
  match o with
  | Outcome.rejected err => catchBlock err w
  | Outcome.unparsable err => catchBlock err w
  | Outcome.parsed data =>
    let w1 := removeLoading w
    match renderPayload data w1 with
    | Except.ok w2 => w2
    | Except.error err => catchBlock err w1

/-! ## Events -/

/-- The part of a `keydown` event the page can tell apart. -/
structure KeyEvent where
  key : String
  shiftKey : Bool
  ctrlKey : Bool
  altKey : Bool
  metaKey : Bool
  deriving DecidableEq, Repr

/-- `form.dispatchEvent(new Event('submit'))`: the listeners of `submit` on
the form run synchronously; there is one. -/
def dispatchSubmit (w : Widget) : Widget :=
  submitListener w

/-- The keydown listener: `if(e.key === 'Enter') form.dispatchEvent(...)`. -/
def keydownListener (e : KeyEvent) (w : Widget) : Widget :=
  if e.key = "Enter" then dispatchSubmit w else w

/-- What can happen to the widget: a submit event, a keydown event, the user
editing the input, and the request at position `i` of the in-flight list
settling. -/
inductive Event where
  | submit
  | keydown (e : KeyEvent)
  | edit (v : String)
  | settle (i : Nat) (o : Outcome)

/-- One event. A settle event for a request that is not in flight does
nothing. -/
def step (w : Widget) : Event → Widget
  | Event.submit => submitListener w
  | Event.keydown e => keydownListener e w
  | Event.edit v => { w with inputValue := v }
  | Event.settle i o =>
    if i < w.inFlight.length then
      submitResume o { w with inFlight := w.inFlight.eraseIdx i }
    else w

/-- A sequence of events, in order. -/
def run (w : Widget) (evs : List Event) : Widget :=
  evs.foldl step w

/-- The number of loading placeholders in a list. -/
def loadingCount (ms : List Message) : Nat :=
  ms.countP isLoading

/-- A keydown or edit event that does not submit. -/
def Event.isPassive : Event → Bool
  | Event.submit => false
  | Event.keydown e => e.key != "Enter"
  | Event.edit _ => true
  | Event.settle _ _ => false

/-- The removal the specification words describe ("removal of the most recent
loading placeholder"): the list without its last loading message.  It is not
what the script does; it is compared with `removeFirstLoading`. -/
def removeMostRecentLoading (ms : List Message) : List Message :=
  (removeFirstLoading ms.reverse).reverse

/-- The user and bot messages of a list, in order. -/
def settledMessages (ms : List Message) : List Message :=
  ms.filter (fun m => !isLoading m)

/-- The page as loaded, with no message and an empty input. -/
def initial : Widget :=
  { messages := [], inputValue := "", inFlight := [], console := [], trace := [] }

end PersonalBrain

namespace PersonalBrain

/-! ## Auxiliary facts -/

theorem jsTrim_of_blank (s : String) (h : ∀ c ∈ s.data, isJSWhiteSpace c = true) :
    jsTrim s = "" := by
  have h1 : trimStartChars s.data = [] := by
    unfold trimStartChars
    exact List.dropWhile_eq_nil_iff.mpr h
  unfold jsTrim
  rw [h1]
  rfl

theorem removeFirstLoading_of_none (ms : List Message)
    (h : ∀ m ∈ ms, m.cls ≠ Role.loading) : removeFirstLoading ms = ms := by
  induction ms with
  | nil => rfl
  | cons m rest ih =>
    have hm : isLoading m = false := by
      have := h m (List.mem_cons_self m rest)
      simpa [isLoading] using this
    have hr : removeFirstLoading rest = rest :=
      ih (fun x hx => h x (List.mem_cons_of_mem m hx))
    simp [removeFirstLoading, hm, hr]

theorem removeFirstLoading_append (l r : List Message)
    (h : ∀ m ∈ l, m.cls ≠ Role.loading) :
    removeFirstLoading (l ++ r) = l ++ removeFirstLoading r := by
  induction l with
  | nil => rfl
  | cons m rest ih =>
    have hm : isLoading m = false := by
      have := h m (List.mem_cons_self m rest)
      simpa [isLoading] using this
    have hr := ih (fun x hx => h x (List.mem_cons_of_mem m hx))
    simp [removeFirstLoading, hm, hr]

theorem any_isLoading_eq_false (ms : List Message) (h : ms.any isLoading = false) :
    ∀ m ∈ ms, m.cls ≠ Role.loading := by
  intro m hm hc
  have h2 : isLoading m = true := by simp [isLoading, hc]
  have h3 : ms.any isLoading = true := List.any_eq_true.mpr ⟨m, hm, h2⟩
  rw [h] at h3
  exact Bool.noConfusion h3

theorem removeLoading_messages (w : Widget) :
    (removeLoading w).messages = removeFirstLoading w.messages := by
  unfold removeLoading
  by_cases h : w.messages.any isLoading = true
  · simp [h]
  · have h2 : w.messages.any isLoading = false := by simpa using h
    rw [if_neg h]
    exact (removeFirstLoading_of_none _ (any_isLoading_eq_false _ h2)).symm

theorem removeLoading_inFlight (w : Widget) : (removeLoading w).inFlight = w.inFlight := by
  unfold removeLoading
  split <;> rfl

theorem removeLoading_console (w : Widget) : (removeLoading w).console = w.console := by
  unfold removeLoading
  split <;> rfl

theorem ownProp_of_not_hasOwn (k : String) (fields : List (String × Json))
    (h : hasOwn k fields = false) : ownProp k fields = none := by
  induction fields with
  | nil => rfl
  | cons p rest ih =>
    obtain ⟨k1, v⟩ := p
    simp only [hasOwn, Bool.or_eq_false_iff] at h
    have hk : k1 ≠ k := by simpa using h.1
    simp [ownProp, ih h.2, hk]

theorem renderPayload_answer (fields : List (String × Json)) (a : String) (w : Widget)
    (h1 : hasOwn "error" fields = false)
    (h2 : ownProp "answer" fields = some (Json.str a)) :
    renderPayload (Json.obj fields) w = Except.ok (addMessage a Role.bot w) := by
  have h3 := ownProp_of_not_hasOwn "error" fields h1
  simp [renderPayload, getProp, h3, h2, toBoolean, toTextContent, jsToString, bind,
    Except.bind, pure, Except.pure]

theorem renderPayload_error (fields : List (String × Json)) (e : String) (w : Widget)
    (h1 : ownProp "error" fields = some (Json.str e)) (h2 : e ≠ "") :
    renderPayload (Json.obj fields) w =
      Except.ok (addMessage ("Error: " ++ e) Role.bot w) := by
  simp [renderPayload, getProp, h1, h2, toBoolean, jsConcat, jsToString, bind,
    Except.bind, pure, Except.pure]

theorem renderPayload_ok (data : Json) (w w2 : Widget)
    (h : renderPayload data w = Except.ok w2) : ∃ t, w2 = addMessage t Role.bot w := by
  unfold renderPayload at h
  cases h1 : getProp data "error" with
  | error err => simp [h1, bind, Except.bind] at h
  | ok err =>
    simp only [h1, bind, Except.bind] at h
    by_cases hb : toBoolean err = true
    · simp only [hb, if_true] at h
      cases h2 : jsConcat "Error: " err with
      | error e2 => simp [h2] at h
      | ok t =>
        simp only [h2, pure, Except.pure] at h
        exact ⟨t, by injection h with h; exact h.symm⟩
    · simp only [hb] at h
      cases h3 : getProp data "answer" with
      | error e3 => simp [h3] at h
      | ok ans =>
        simp only [h3] at h
        cases h4 : toTextContent ans with
        | error e4 => simp [h4] at h
        | ok t =>
          simp only [h4, pure, Except.pure] at h
          have h5 : addMessage t Role.bot w = w2 := by simpa using h
          exact ⟨t, h5.symm⟩

theorem eraseIdx_length_append (l : List Request) (r : Request) :
    (l ++ [r]).eraseIdx l.length = l := by
  induction l with
  | nil => rfl
  | cons x rest ih => simp [List.eraseIdx, ih]

theorem submitListener_eq (w : Widget) (q : String) (hq : jsTrim w.inputValue = q)
    (hne : q ≠ "") :
    submitListener w =
      { messages := w.messages ++ [⟨q, Role.user⟩, ⟨"Thinking...", Role.loading⟩]
        inputValue := ""
        inFlight := w.inFlight ++ [chatRequest q]
        console := w.console
        trace := w.trace ++ [Effect.appendChild ⟨q, Role.user⟩, Effect.scrollToBottom,
          Effect.setInputValue "", Effect.appendChild ⟨"Thinking...", Role.loading⟩,
          Effect.scrollToBottom, Effect.fetch (chatRequest q)] } := by
  subst hq
  simp [submitListener, hne, issueFetch, addMessage, setInputValue]

theorem step_submit_settle (w : Widget) (q : String) (hq : jsTrim w.inputValue = q)
    (hne : q ≠ "") (o : Outcome) :
    step (step w Event.submit) (Event.settle w.inFlight.length o) =
      submitResume o
        { messages := w.messages ++ [⟨q, Role.user⟩, ⟨"Thinking...", Role.loading⟩]
          inputValue := ""
          inFlight := w.inFlight
          console := w.console
          trace := w.trace ++ [Effect.appendChild ⟨q, Role.user⟩, Effect.scrollToBottom,
            Effect.setInputValue "", Effect.appendChild ⟨"Thinking...", Role.loading⟩,
            Effect.scrollToBottom, Effect.fetch (chatRequest q)] } := by
  simp only [step]
  rw [submitListener_eq w q hq hne]
  simp [eraseIdx_length_append]

theorem removeFirstLoading_submitted (l : List Message) (q : String)
    (h : ∀ m ∈ l, m.cls ≠ Role.loading) :
    removeFirstLoading (l ++ [⟨q, Role.user⟩, ⟨"Thinking...", Role.loading⟩]) =
      l ++ [⟨q, Role.user⟩] := by
  rw [removeFirstLoading_append l _ h]
  simp [removeFirstLoading, isLoading]

theorem catchBlock_messages (err : Failure) (w : Widget) :
    (catchBlock err w).messages =
      removeFirstLoading w.messages ++ [⟨networkErrorText, Role.bot⟩] := by
  simp [catchBlock, consoleError, addMessage, removeLoading_messages]

theorem hexValue_hexDigit : ∀ k, k < 16 → hexValue (hexDigit k) = some k := by decide

theorem decode_escape (e x : Char) (tail cs r : List Char)
    (he : e.toNat ≠ 0x75) (hx : unescapeChar e = some x)
    (h : decodeJSONChars tail = some (cs, r)) :
    decodeJSONChars ('\\' :: e :: tail) = some (x :: cs, r) := by
  rw [decodeJSONChars.eq_def]
  have h2 : '\\'.toNat = 0x5C := by decide
  simp [h2, he, hx, h]

theorem decode_unicode (a b c2 d : Char) (x3 x2 x1 x0 : Nat) (tail cs r : List Char)
    (ha : hexValue a = some x3) (hb : hexValue b = some x2)
    (hc : hexValue c2 = some x1) (hd : hexValue d = some x0)
    (h : decodeJSONChars tail = some (cs, r)) :
    decodeJSONChars ('\\' :: 'u' :: a :: b :: c2 :: d :: tail) =
      some (Char.ofNat (((x3 * 16 + x2) * 16 + x1) * 16 + x0) :: cs, r) := by
  rw [decodeJSONChars.eq_def]
  have h2 : '\\'.toNat = 0x5C := by decide
  have h3 : 'u'.toNat = 0x75 := by decide
  simp [h2, h3, ha, hb, hc, hd, h]

theorem decode_plain (c : Char) (tail cs r : List Char)
    (h1 : c.toNat ≠ 0x22) (h2 : c.toNat ≠ 0x5C) (h3 : ¬ c.toNat < 0x20)
    (h : decodeJSONChars tail = some (cs, r)) :
    decodeJSONChars (c :: tail) = some (c :: cs, r) := by
  rw [decodeJSONChars.eq_def]
  simp [h1, h2, h3, h]

theorem decode_quoteChar (c : Char) (tail cs r : List Char)
    (h : decodeJSONChars tail = some (cs, r)) :
    decodeJSONChars (quoteJSONChar c ++ tail) = some (c :: cs, r) := by
  have hc : Char.ofNat c.toNat = c := Char.ofNat_toNat c
  unfold quoteJSONChar
  simp only [beq_iff_eq, decide_eq_true_eq]
  split_ifs with h1 h2 h3 h4 h5 h6 h7 h8
  · rw [h1] at hc
    rw [← hc]
    exact decode_escape 'b' _ tail cs r (by decide) rfl h
  · rw [h2] at hc
    rw [← hc]
    exact decode_escape 't' _ tail cs r (by decide) rfl h
  · rw [h3] at hc
    rw [← hc]
    exact decode_escape 'n' _ tail cs r (by decide) rfl h
  · rw [h4] at hc
    rw [← hc]
    exact decode_escape 'f' _ tail cs r (by decide) rfl h
  · rw [h5] at hc
    rw [← hc]
    exact decode_escape 'r' _ tail cs r (by decide) rfl h
  · rw [h6] at hc
    rw [← hc]
    exact decode_escape '"' _ tail cs r (by decide) rfl h
  · rw [h7] at hc
    rw [← hc]
    exact decode_escape '\\' _ tail cs r (by decide) rfl h
  · have hd1 : c.toNat / 16 < 16 := by omega
    have hd0 : c.toNat % 16 < 16 := by omega
    have key := decode_unicode '0' '0' (hexDigit (c.toNat / 16)) (hexDigit (c.toNat % 16))
      0 0 (c.toNat / 16) (c.toNat % 16) tail cs r rfl rfl
      (hexValue_hexDigit _ hd1) (hexValue_hexDigit _ hd0) h
    have hn : ((0 * 16 + 0) * 16 + c.toNat / 16) * 16 + c.toNat % 16 = c.toNat := by omega
    rw [hn, hc] at key
    exact key
  · exact decode_plain c tail cs r h6 h7 h8 h

theorem decode_quoted (cs rest : List Char) :
    decodeJSONChars (cs.flatMap quoteJSONChar ++ (Char.ofNat 0x22 :: rest)) = some (cs, rest) := by
  induction cs with
  | nil =>
    simp only [List.flatMap_nil, List.nil_append]
    rw [decodeJSONChars.eq_def]
    simp
  | cons c cs ih =>
    rw [List.flatMap_cons, List.append_assoc]
    exact decode_quoteChar c _ cs rest ih

theorem parseMembers_single (fuel : Nat) (k v : List Char) :
    parseMembers (fuel + 1)
      (Char.ofNat 0x22 :: (k.flatMap quoteJSONChar ++ (Char.ofNat 0x22 :: Char.ofNat 0x3A ::
        Char.ofNat 0x22 :: (v.flatMap quoteJSONChar ++
          (Char.ofNat 0x22 :: [Char.ofNat 0x7D]))))) = some [(⟨k⟩, ⟨v⟩)] := by
  have h22 : (Char.ofNat 0x22).toNat = 0x22 := by decide
  have h3A : (Char.ofNat 0x3A).toNat = 0x3A := by decide
  have h7D : (Char.ofNat 0x7D).toNat = 0x7D := by decide
  rw [parseMembers.eq_def]
  simp only [h22, if_true, decode_quoted, h3A, h7D, and_self]

theorem stringifyQuestion_data (q : String) :
    (stringifyQuestion q).data =
      Char.ofNat 0x7B :: Char.ofNat 0x22 ::
        ("question".data.flatMap quoteJSONChar ++ (Char.ofNat 0x22 :: Char.ofNat 0x3A ::
          Char.ofNat 0x22 :: (q.data.flatMap quoteJSONChar ++
            (Char.ofNat 0x22 :: [Char.ofNat 0x7D])))) := by
  have hk : "question".data.flatMap quoteJSONChar = "question".data := by decide
  rw [hk]
  simp [stringifyQuestion, quoteJSONString, String.data_append]

theorem parse_stringifyQuestion (q : String) :
    parseStringObject (stringifyQuestion q) = some [("question", q)] := by
  unfold parseStringObject
  rw [stringifyQuestion_data]
  have h7B : (Char.ofNat 0x7B).toNat = 0x7B := by decide
  simp only [h7B, if_true, List.length_cons]
  rw [if_neg (by simp), parseMembers_single]

theorem loadingCount_removeFirstLoading (ms : List Message) :
    loadingCount (removeFirstLoading ms) = loadingCount ms - 1 := by
  induction ms with
  | nil => rfl
  | cons m rest ih =>
    unfold loadingCount at ih ⊢
    by_cases hm : isLoading m = true
    · simp [removeFirstLoading, hm, List.countP_cons]
    · simp [removeFirstLoading, hm, List.countP_cons, ih]

theorem loadingCount_iterate (k : Nat) (ms : List Message) :
    loadingCount (Nat.iterate removeFirstLoading k ms) = loadingCount ms - k := by
  induction k with
  | zero => rfl
  | succ n ih =>
    rw [Function.iterate_succ_apply', loadingCount_removeFirstLoading, ih]
    omega

theorem loadingCount_append_bot (ms : List Message) (m : Message) (hm : m.cls = Role.bot) :
    loadingCount (ms ++ [m]) = loadingCount ms := by
  simp [loadingCount, List.countP_append, List.countP_cons, isLoading, hm]

theorem settledMessages_removeFirstLoading (ms : List Message) :
    settledMessages (removeFirstLoading ms) = settledMessages ms := by
  induction ms with
  | nil => rfl
  | cons m rest ih =>
    unfold settledMessages at ih ⊢
    by_cases hm : isLoading m = true
    · simp [removeFirstLoading, hm, List.filter_cons]
    · simp [removeFirstLoading, hm, List.filter_cons, ih]

theorem settledMessages_iterate (k : Nat) (ms : List Message) :
    settledMessages (Nat.iterate removeFirstLoading k ms) = settledMessages ms := by
  induction k with
  | zero => rfl
  | succ n ih =>
    rw [Function.iterate_succ_apply', settledMessages_removeFirstLoading, ih]

theorem submitResume_messages (o : Outcome) (w : Widget) :
    ∃ k m, 1 ≤ k ∧ k ≤ 2 ∧ m.cls = Role.bot ∧
      (submitResume o w).messages = Nat.iterate removeFirstLoading k w.messages ++ [m] := by
  cases o with
  | rejected err =>
    exact ⟨1, ⟨networkErrorText, Role.bot⟩, le_refl 1, by decide, rfl,
      catchBlock_messages err w⟩
  | unparsable err =>
    exact ⟨1, ⟨networkErrorText, Role.bot⟩, le_refl 1, by decide, rfl,
      catchBlock_messages err w⟩
  | parsed data =>
    cases h : renderPayload data (removeLoading w) with
    | ok w2 =>
      obtain ⟨t, ht⟩ := renderPayload_ok data _ w2 h
      refine ⟨1, ⟨t, Role.bot⟩, le_refl 1, by decide, rfl, ?_⟩
      simp [submitResume, h, ht, addMessage, removeLoading_messages]
    | error err =>
      refine ⟨2, ⟨networkErrorText, Role.bot⟩, by decide, le_refl 2, rfl, ?_⟩
      simp [submitResume, h, catchBlock_messages, removeLoading_messages]

theorem catchBlock_inFlight (err : Failure) (w : Widget) :
    (catchBlock err w).inFlight = w.inFlight := by
  simp [catchBlock, consoleError, addMessage, removeLoading_inFlight]

theorem submitResume_inFlight (o : Outcome) (w : Widget) :
    (submitResume o w).inFlight = w.inFlight := by
  cases o with
  | rejected err => exact catchBlock_inFlight err w
  | unparsable err => exact catchBlock_inFlight err w
  | parsed data =>
    cases h : renderPayload data (removeLoading w) with
    | ok w2 =>
      obtain ⟨t, ht⟩ := renderPayload_ok data _ w2 h
      simp [submitResume, h, ht, addMessage, removeLoading_inFlight]
    | error err =>
      simp [submitResume, h, catchBlock_inFlight, removeLoading_inFlight]

theorem submitListener_cases (w : Widget) :
    submitListener w = w ∨
      ∃ q, (submitListener w).messages =
            w.messages ++ [⟨q, Role.user⟩, ⟨"Thinking...", Role.loading⟩]
        ∧ (submitListener w).inFlight = w.inFlight ++ [chatRequest q] := by
  by_cases h : jsTrim w.inputValue = ""
  · left
    simp [submitListener, h]
  · right
    refine ⟨jsTrim w.inputValue, ?_⟩
    rw [submitListener_eq w _ rfl h]
    exact ⟨rfl, rfl⟩

theorem step_passive (w : Widget) (e : Event) (h : e.isPassive = true) :
    (step w e).messages = w.messages ∧ (step w e).inFlight = w.inFlight := by
  cases e with
  | submit => simp [Event.isPassive] at h
  | keydown k =>
    have hk : k.key ≠ "Enter" := by simpa [Event.isPassive] using h
    simp [step, keydownListener, hk]
  | edit v => exact ⟨rfl, rfl⟩
  | settle i o => simp [Event.isPassive] at h

theorem run_passive (evs : List Event) (w : Widget)
    (h : ∀ e ∈ evs, e.isPassive = true) :
    (run w evs).messages = w.messages ∧ (run w evs).inFlight = w.inFlight := by
  induction evs generalizing w with
  | nil => exact ⟨rfl, rfl⟩
  | cons e rest ih =>
    have h1 := step_passive w e (h e (List.mem_cons_self e rest))
    have h2 := ih (step w e) (fun x hx => h x (List.mem_cons_of_mem e hx))
    simp only [run, List.foldl_cons] at h2 ⊢
    exact ⟨h2.1.trans h1.1, h2.2.trans h1.2⟩

theorem step_keeps_bound (w : Widget) (e : Event)
    (h : loadingCount w.messages ≤ w.inFlight.length) :
    loadingCount (step w e).messages ≤ (step w e).inFlight.length := by
  have hsub : loadingCount (submitListener w).messages ≤ (submitListener w).inFlight.length := by
    rcases submitListener_cases w with h1 | ⟨q, h1, h2⟩
    · rw [h1]; exact h
    · rw [h1, h2]
      simp only [loadingCount, List.countP_append, List.countP_cons, List.countP_nil,
        List.length_append, List.length_cons, List.length_nil] at h ⊢
      simp [isLoading]
      exact h
  cases e with
  | submit => exact hsub
  | keydown k =>
    by_cases hk : k.key = "Enter"
    · simpa [step, keydownListener, dispatchSubmit, hk] using hsub
    · simpa [step, keydownListener, hk] using h
  | edit v => exact h
  | settle i o =>
    by_cases hi : i < w.inFlight.length
    · simp only [step, hi, if_true]
      obtain ⟨k, m, hk1, _, hm, hmsg⟩ :=
        submitResume_messages o { w with inFlight := w.inFlight.eraseIdx i }
      rw [hmsg, submitResume_inFlight, loadingCount_append_bot _ m hm, loadingCount_iterate]
      simp only [List.length_eraseIdx, hi, if_true]
      omega
    · simpa [step, hi] using h

theorem run_keeps_bound (evs : List Event) (w : Widget)
    (h : loadingCount w.messages ≤ w.inFlight.length) :
    loadingCount (run w evs).messages ≤ (run w evs).inFlight.length := by
  induction evs generalizing w with
  | nil => exact h
  | cons e rest ih =>
    have h2 := ih (step w e) (step_keeps_bound w e h)
    simpa [run] using h2

theorem settle_loadingCount_le (w : Widget) (i : Nat) (o : Outcome)
    (hi : i < w.inFlight.length) :
    loadingCount (step w (Event.settle i o)).messages ≤ loadingCount w.messages - 1 := by
  simp only [step, hi, if_true]
  obtain ⟨k, m, hk1, _, hm, hmsg⟩ :=
    submitResume_messages o { w with inFlight := w.inFlight.eraseIdx i }
  rw [hmsg, loadingCount_append_bot _ m hm, loadingCount_iterate]
  simp only []
  omega

/-- One submission with a non-empty trimmed input, started from a list
without loading message: as long as only edits of the input and keys other
than Enter follow, the list holds exactly one loading message, and the settle
step of this request, whatever the outcome, leaves none. -/
theorem one_loading_until_settle (w : Widget) (q : String)
    (hq : jsTrim w.inputValue = q) (hne : q ≠ "")
    (hidle : ∀ m ∈ w.messages, m.cls ≠ Role.loading)
    (evs : List Event) (hpass : ∀ e ∈ evs, e.isPassive = true) (o : Outcome) :
    (∀ pre : List Event, pre <+: evs →
        loadingCount (run (step w Event.submit) pre).messages = 1)
      ∧ loadingCount
          (step (run (step w Event.submit) evs)
            (Event.settle w.inFlight.length o)).messages = 0 := by
  have h0 : loadingCount w.messages = 0 := by
    unfold loadingCount
    rw [List.countP_eq_zero]
    intro m hm
    simpa [isLoading] using hidle m hm
  have hs := submitListener_eq w q hq hne
  have hone : loadingCount (step w Event.submit).messages = 1 := by
    simp only [step, hs]
    unfold loadingCount at h0 ⊢
    simp [List.countP_append, List.countP_cons, isLoading, h0]
  have hlen : (step w Event.submit).inFlight.length = w.inFlight.length + 1 := by
    simp [step, hs]
  constructor
  · intro pre hpre
    have hp : ∀ e ∈ pre, e.isPassive = true := fun e he => hpass e (hpre.subset he)
    rw [(run_passive pre _ hp).1]
    exact hone
  · have hr := run_passive evs (step w Event.submit) hpass
    have hi : w.inFlight.length < (run (step w Event.submit) evs).inFlight.length := by
      rw [hr.2, hlen]
      exact Nat.lt_succ_self _
    have hle := settle_loadingCount_le (run (step w Event.submit) evs) w.inFlight.length o hi
    rw [hr.1, hone] at hle
    omega

/-! ## The claims -/

/-- C1: when the trimmed input `q` is not empty, the submit listener appends
the user message with text `q`, then clears the input, then appends the
loading message "Thinking...", and only then issues one request, which is
`POST /api/chat` with the header `Content-Type: application/json` and the
body `JSON.stringify` of the object whose one property is `question = q`:
read back as JSON, the body is an object with the single member `question`
whose value is `q`, whatever characters `q` holds.  The request is issued on
a widget whose list already is the old list followed by the user message and
the loading message. -/
theorem submit_effects_in_order (w : Widget) (q : String)
    (hq : jsTrim w.inputValue = q) (hne : q ≠ "") :
    (submitListener w).trace =
        w.trace ++ [Effect.appendChild ⟨q, Role.user⟩, Effect.scrollToBottom,
          Effect.setInputValue "", Effect.appendChild ⟨"Thinking...", Role.loading⟩,
          Effect.scrollToBottom,
          Effect.fetch ⟨"/api/chat", "POST", [("Content-Type", "application/json")],
            "\x7b\"question\":" ++ quoteJSONString q ++ "\x7d"⟩]
      ∧ (submitListener w).messages =
        w.messages ++ [⟨q, Role.user⟩, ⟨"Thinking...", Role.loading⟩]
      ∧ (submitListener w).inputValue = ""
      ∧ (submitListener w).inFlight =
        w.inFlight ++ [⟨"/api/chat", "POST", [("Content-Type", "application/json")],
          "\x7b\"question\":" ++ quoteJSONString q ++ "\x7d"⟩]
      ∧ (submitListener w).console = w.console
      ∧ (∃ w3 : Widget,
        w3.messages = w.messages ++ [⟨q, Role.user⟩, ⟨"Thinking...", Role.loading⟩]
          ∧ w3.inputValue = "" ∧ w3.inFlight = w.inFlight
          ∧ submitListener w = issueFetch (chatRequest q) w3)
      ∧ parseStringObject ("\x7b\"question\":" ++ quoteJSONString q ++ "\x7d") =
        some [("question", q)]
      ∧ ∀ r ∈ (submitListener w).inFlight, r ∉ w.inFlight →
          parseStringObject r.body = some [("question", q)] := by
  have hparse : parseStringObject ("\x7b\"question\":" ++ quoteJSONString q ++ "\x7d") =
      some [("question", q)] := parse_stringifyQuestion q
  rw [submitListener_eq w q hq hne]
  refine ⟨rfl, rfl, rfl, rfl, rfl, ?_, hparse, ?_⟩
  · refine ⟨{ messages := w.messages ++ [⟨q, Role.user⟩, ⟨"Thinking...", Role.loading⟩]
              inputValue := ""
              inFlight := w.inFlight
              console := w.console
              trace := w.trace ++ [Effect.appendChild ⟨q, Role.user⟩, Effect.scrollToBottom,
                Effect.setInputValue "", Effect.appendChild ⟨"Thinking...", Role.loading⟩,
                Effect.scrollToBottom] }, rfl, rfl, rfl, ?_⟩
    simp [issueFetch]
  · intro r hr hnot
    simp only [List.mem_append, List.mem_singleton] at hr
    rcases hr with hr | hr
    · exact absurd hr hnot
    · subst hr
      exact hparse

/-- Witness of C1: the input `  a","admin":"1\` followed by a line feed, the
control character U+0001, `b` and a space, on the freshly loaded page: the
quotation marks, the reverse solidus and the control characters are escaped,
and the body read back has the one member `question`. -/
theorem submit_effects_in_order_witness :
    (submitListener
        { initial with inputValue := "  a\",\"admin\":\"1\\\n\x01b " }).messages =
        [⟨"a\",\"admin\":\"1\\\n\x01b", Role.user⟩, ⟨"Thinking...", Role.loading⟩]
      ∧ (submitListener
          { initial with inputValue := "  a\",\"admin\":\"1\\\n\x01b " }).inFlight =
        [⟨"/api/chat", "POST", [("Content-Type", "application/json")],
          "\x7b\"question\":\"a\\\",\\\"admin\\\":\\\"1\\\\\\n\\u0001b\"\x7d"⟩]
      ∧ parseStringObject
          "\x7b\"question\":\"a\\\",\\\"admin\\\":\\\"1\\\\\\n\\u0001b\"\x7d" =
        some [("question", "a\",\"admin\":\"1\\\n\x01b")] := by
  have h := submit_effects_in_order
    { initial with inputValue := "  a\",\"admin\":\"1\\\n\x01b " }
    "a\",\"admin\":\"1\\\n\x01b" (by decide) (by decide)
  exact ⟨h.2.1, h.2.2.2.1, h.2.2.2.2.2.2.1⟩

/-- C2: when the input is empty or holds only white space, the submit listener
leaves the whole widget as it was: messages, input value, requests in flight,
console and effect trace. -/
theorem submit_blank_is_noop (w : Widget)
    (h : ∀ c ∈ w.inputValue.data, isJSWhiteSpace c = true) :
    submitListener w = w := by
  simp [submitListener, jsTrim_of_blank w.inputValue h]

/-- Witness of C2: an input of a space, a tab and a no-break space. -/
theorem submit_blank_is_noop_witness :
    submitListener { initial with inputValue := " \t\u00A0", messages := [⟨"x", Role.bot⟩] } =
      { initial with inputValue := " \t\u00A0", messages := [⟨"x", Role.bot⟩] } :=
  submit_blank_is_noop _ (by decide)

/-- C3: for a parsed payload that is an object without an `error` property
whose `answer` property is the string `a`, the settle step removes the first
loading message and appends one bot message whose text is exactly `a`; for a
single submission started from a list `L` without loading message the final
list is `L ++ [user q, bot a]`. -/
theorem answer_rendered_verbatim (w : Widget) (q a : String)
    (fields : List (String × Json))
    (hq : jsTrim w.inputValue = q) (hne : q ≠ "")
    (hidle : ∀ m ∈ w.messages, m.cls ≠ Role.loading)
    (herr : hasOwn "error" fields = false)
    (hans : ownProp "answer" fields = some (Json.str a)) :
    (∀ w1 : Widget, (submitResume (Outcome.parsed (Json.obj fields)) w1).messages =
        removeFirstLoading w1.messages ++ [⟨a, Role.bot⟩])
      ∧ (step (step w Event.submit)
          (Event.settle w.inFlight.length (Outcome.parsed (Json.obj fields)))).messages =
        w.messages ++ [⟨q, Role.user⟩, ⟨a, Role.bot⟩] := by
  have hgen : ∀ w1 : Widget,
      (submitResume (Outcome.parsed (Json.obj fields)) w1).messages =
        removeFirstLoading w1.messages ++ [⟨a, Role.bot⟩] := by
    intro w1
    simp [submitResume, renderPayload_answer fields a _ herr hans, addMessage,
      removeLoading_messages]
  refine ⟨hgen, ?_⟩
  rw [step_submit_settle w q hq hne, hgen]
  simp [removeFirstLoading_submitted w.messages q hidle]

/-- Witness of C3: the payload `{"answer": "Paris is the capital of France."}`
after asking "capital?" on the freshly loaded page. -/
theorem answer_rendered_verbatim_witness :
    (step (step { initial with inputValue := "capital?" } Event.submit)
        (Event.settle 0 (Outcome.parsed
          (Json.obj [("answer", Json.str "Paris is the capital of France.")])))).messages =
      [⟨"capital?", Role.user⟩, ⟨"Paris is the capital of France.", Role.bot⟩] :=
  (answer_rendered_verbatim { initial with inputValue := "capital?" } "capital?"
    "Paris is the capital of France."
    [("answer", Json.str "Paris is the capital of France.")]
    (by decide) (by decide) (by decide) rfl rfl).2

/-- C4, as stated, fails: the payload `{"error": "", "answer": "hi"}` has an
`error` property with a string value, yet after asking "q" on the freshly
loaded page the bot message shows the answer "hi" and not "Error: ". -/
theorem empty_error_renders_answer :
    (run initial [Event.edit "q", Event.submit,
        Event.settle 0 (Outcome.parsed
          (Json.obj [("error", Json.str ""), ("answer", Json.str "hi")]))]).messages
      = [⟨"q", Role.user⟩, ⟨"hi", Role.bot⟩]
    ∧ (run initial [Event.edit "q", Event.submit,
        Event.settle 0 (Outcome.parsed
          (Json.obj [("error", Json.str ""), ("answer", Json.str "hi")]))]).messages
      ≠ [⟨"q", Role.user⟩, ⟨"Error: " ++ "", Role.bot⟩] := by
  constructor <;> decide

/-- C4, amended: for a parsed payload whose `error` property is a non-empty
string `e`, whatever its other properties, the settle step removes the first
loading message and appends one bot message whose text is exactly
`"Error: " ++ e`; the `answer` property is not rendered. -/
theorem error_rendered_with_label (fields : List (String × Json)) (e : String)
    (herr : ownProp "error" fields = some (Json.str e)) (hne : e ≠ "") (w : Widget) :
    (submitResume (Outcome.parsed (Json.obj fields)) w).messages =
      removeFirstLoading w.messages ++ [⟨"Error: " ++ e, Role.bot⟩] := by
  simp [submitResume, renderPayload_error fields e _ herr hne, addMessage,
    removeLoading_messages]

/-- Witness of amended C4: the payload `{"error": "rate limited"}`, also with
an `answer` property next to it. -/
theorem error_rendered_with_label_witness :
    (submitResume
        (Outcome.parsed
          (Json.obj [("answer", Json.str "hi"), ("error", Json.str "rate limited")]))
        { initial with messages := [⟨"q", Role.user⟩, ⟨"Thinking...", Role.loading⟩] }).messages
      = [⟨"q", Role.user⟩, ⟨"Error: rate limited", Role.bot⟩] :=
  error_rendered_with_label
    [("answer", Json.str "hi"), ("error", Json.str "rate limited")] "rate limited"
    rfl (by decide)
    { initial with messages := [⟨"q", Role.user⟩, ⟨"Thinking...", Role.loading⟩] }

/-- C5: when the request is rejected or the body does not parse, the settle
step removes the first loading message (if there is one), appends one bot
message with the fixed text, whatever the failure is, and then writes the
failure to the console; for a single submission started from a list `L`
without loading message the final list is `L ++ [user q, bot fixed-text]` and
holds no loading message. -/
theorem failure_shows_fixed_text (w : Widget) (err : Failure) (o : Outcome)
    (ho : o = Outcome.rejected err ∨ o = Outcome.unparsable err) :
    (submitResume o w).messages =
        removeFirstLoading w.messages
          ++ [⟨"Network error. See console for details.", Role.bot⟩]
      ∧ (submitResume o w).console = w.console ++ [err]
      ∧ (submitResume o w).trace =
        (w.trace ++ if w.messages.any isLoading then [Effect.removeLoading] else [])
          ++ [Effect.appendChild ⟨"Network error. See console for details.", Role.bot⟩,
              Effect.scrollToBottom, Effect.consoleError err]
      ∧ ∀ q : String, jsTrim w.inputValue = q → q ≠ "" →
          (∀ m ∈ w.messages, m.cls ≠ Role.loading) →
          (step (step w Event.submit) (Event.settle w.inFlight.length o)).messages =
              w.messages ++ [⟨q, Role.user⟩,
                ⟨"Network error. See console for details.", Role.bot⟩]
            ∧ loadingCount
              (step (step w Event.submit) (Event.settle w.inFlight.length o)).messages = 0 := by
  have hres : ∀ w1 : Widget, submitResume o w1 = catchBlock err w1 := by
    intro w1
    rcases ho with h | h <;> subst h <;> rfl
  have hmsg : ∀ w1 : Widget, (submitResume o w1).messages =
      removeFirstLoading w1.messages
        ++ [⟨"Network error. See console for details.", Role.bot⟩] := by
    intro w1
    rw [hres, catchBlock_messages]
    rfl
  refine ⟨hmsg w, ?_, ?_, ?_⟩
  · rw [hres]
    simp [catchBlock, consoleError, addMessage, removeLoading_console]
  · rw [hres]
    by_cases hl : w.messages.any isLoading = true
    · simp [catchBlock, consoleError, addMessage, removeLoading, hl, networkErrorText]
    · simp [catchBlock, consoleError, addMessage, removeLoading, hl, networkErrorText]
  · intro q hq hne hidle
    rw [step_submit_settle w q hq hne, hmsg]
    simp only [removeFirstLoading_submitted w.messages q hidle]
    refine ⟨by simp, ?_⟩
    have h0 : List.countP isLoading w.messages = 0 := by
      rw [List.countP_eq_zero]
      intro m hm
      simpa [isLoading] using hidle m hm
    simp [loadingCount, List.countP_append, h0, List.countP_cons, isLoading]

/-- Witness of C5: a rejected request after asking "hello" below one earlier
bot message. -/
theorem failure_shows_fixed_text_witness :
    (step (step { initial with inputValue := "hello", messages := [⟨"x", Role.bot⟩] }
        Event.submit)
        (Event.settle 0 (Outcome.rejected ⟨"TypeError: Failed to fetch"⟩))).messages =
      [⟨"x", Role.bot⟩, ⟨"hello", Role.user⟩,
        ⟨"Network error. See console for details.", Role.bot⟩] :=
  ((failure_shows_fixed_text
      { initial with inputValue := "hello", messages := [⟨"x", Role.bot⟩] }
      ⟨"TypeError: Failed to fetch"⟩ (Outcome.rejected ⟨"TypeError: Failed to fetch"⟩)
      (Or.inl rfl)).2.2.2 "hello" (by decide) (by decide) (by decide)).1

/-- C8: a keydown event whose key is "Enter" does exactly what a submit event
does in the same state, whatever the modifier keys are (so also nothing on a
blank input); a keydown event with any other key changes nothing. -/
theorem enter_key_is_submit (w : Widget) (e : KeyEvent) :
    (e.key = "Enter" →
        keydownListener e w = submitListener w
          ∧ step w (Event.keydown e) = step w Event.submit)
      ∧ (e.key ≠ "Enter" →
        keydownListener e w = w ∧ step w (Event.keydown e) = w) := by
  constructor
  · intro h
    simp [keydownListener, dispatchSubmit, step, h]
  · intro h
    simp [keydownListener, step, h]

/-- Witness of C8: Shift+Enter on the input "hi" gives the state a submit
event gives. -/
theorem enter_key_is_submit_witness :
    keydownListener ⟨"Enter", true, false, false, false⟩ { initial with inputValue := "hi" } =
      submitListener { initial with inputValue := "hi" } :=
  ((enter_key_is_submit { initial with inputValue := "hi" }
    ⟨"Enter", true, false, false, false⟩).1 rfl).1

/-- C6, as stated, fails: from the freshly loaded page (no loading message),
two submissions without a settle step in between leave two loading messages
in the list. -/
theorem overlapping_submits_two_loading :
    (∀ m ∈ initial.messages, m.cls ≠ Role.loading)
      ∧ (run initial [Event.edit "a", Event.submit, Event.edit "b", Event.submit]).messages =
        [⟨"a", Role.user⟩, ⟨"Thinking...", Role.loading⟩,
          ⟨"b", Role.user⟩, ⟨"Thinking...", Role.loading⟩]
      ∧ ¬ loadingCount
          (run initial [Event.edit "a", Event.submit, Event.edit "b", Event.submit]).messages
        ≤ 1 := by
  refine ⟨by decide, by decide, by decide⟩

/-- C6, amended: in every state reachable, by any sequence of events, from a
state whose list holds no loading message, the number of loading messages is
at most the number of requests in flight; so the list holds at most one
loading message whenever at most one request is in flight. -/
theorem loading_bounded_by_in_flight (w : Widget) (evs : List Event)
    (hidle : ∀ m ∈ w.messages, m.cls ≠ Role.loading) :
    loadingCount (run w evs).messages ≤ (run w evs).inFlight.length
      ∧ ((run w evs).inFlight.length ≤ 1 → loadingCount (run w evs).messages ≤ 1) := by
  have h0 : loadingCount w.messages = 0 := by
    unfold loadingCount
    rw [List.countP_eq_zero]
    intro m hm
    simpa [isLoading] using hidle m hm
  have h1 := run_keeps_bound evs w (by omega)
  exact ⟨h1, fun h2 => le_trans h1 h2⟩

/-- Witness of amended C6: a submission, a second submission and the answer
to the first one, from the freshly loaded page. -/
theorem loading_bounded_by_in_flight_witness :
    loadingCount (run initial [Event.edit "a", Event.submit, Event.edit "b", Event.submit,
        Event.settle 0 (Outcome.parsed (Json.obj [("answer", Json.str "x")]))]).messages
      ≤ (run initial [Event.edit "a", Event.submit, Event.edit "b", Event.submit,
        Event.settle 0 (Outcome.parsed (Json.obj [("answer", Json.str "x")]))]).inFlight.length :=
  (loading_bounded_by_in_flight initial [Event.edit "a", Event.submit, Event.edit "b",
    Event.submit, Event.settle 0 (Outcome.parsed (Json.obj [("answer", Json.str "x")]))]
    (by decide)).1

/-- C7, at the failing input: from the freshly loaded page, "a" and "b" are
submitted and the first response has the body `null`, which removes both
loading messages and leaves one request in flight.  The submission of "c"
then starts from a list without loading message and no submit event follows
it; when the earlier request is answered, the loading message of "c" is
removed, so the list holds no loading message although the request of "c" has
not settled. -/
theorem stale_response_removes_new_loading :
    loadingCount
        (run initial [Event.edit "a", Event.submit, Event.edit "b", Event.submit,
          Event.settle 0 (Outcome.parsed Json.null), Event.edit "c"]).messages = 0
      ∧ jsTrim
        (run initial [Event.edit "a", Event.submit, Event.edit "b", Event.submit,
          Event.settle 0 (Outcome.parsed Json.null), Event.edit "c"]).inputValue = "c"
      ∧ loadingCount
        (run initial [Event.edit "a", Event.submit, Event.edit "b", Event.submit,
          Event.settle 0 (Outcome.parsed Json.null), Event.edit "c",
          Event.submit]).messages = 1
      ∧ (run initial [Event.edit "a", Event.submit, Event.edit "b", Event.submit,
          Event.settle 0 (Outcome.parsed Json.null), Event.edit "c",
          Event.submit]).inFlight = [chatRequest "b", chatRequest "c"]
      ∧ (run initial [Event.edit "a", Event.submit, Event.edit "b", Event.submit,
          Event.settle 0 (Outcome.parsed Json.null), Event.edit "c", Event.submit,
          Event.settle 0 (Outcome.parsed (Json.obj [("answer", Json.str "x")]))]).inFlight =
        [chatRequest "c"]
      ∧ (run initial [Event.edit "a", Event.submit, Event.edit "b", Event.submit,
          Event.settle 0 (Outcome.parsed Json.null), Event.edit "c", Event.submit,
          Event.settle 0 (Outcome.parsed (Json.obj [("answer", Json.str "x")]))]).messages =
        [⟨"a", Role.user⟩, ⟨"b", Role.user⟩,
          ⟨"Network error. See console for details.", Role.bot⟩,
          ⟨"c", Role.user⟩, ⟨"x", Role.bot⟩]
      ∧ loadingCount
        (run initial [Event.edit "a", Event.submit, Event.edit "b", Event.submit,
          Event.settle 0 (Outcome.parsed Json.null), Event.edit "c", Event.submit,
          Event.settle 0 (Outcome.parsed (Json.obj [("answer", Json.str "x")]))]).messages
        = 0 := by
  refine ⟨by decide, by decide, by decide, by decide, by decide, by decide, by decide⟩

/-- C9, as stated, fails: after two overlapping submissions the list holds
two loading messages, and the settle step removes the first one (the oldest),
not the one inserted most recently. -/
theorem settle_removes_oldest_loading :
    (run initial [Event.edit "a", Event.submit, Event.edit "b", Event.submit]).messages
      = [⟨"a", Role.user⟩, ⟨"Thinking...", Role.loading⟩,
          ⟨"b", Role.user⟩, ⟨"Thinking...", Role.loading⟩]
    ∧ (run initial [Event.edit "a", Event.submit, Event.edit "b", Event.submit,
        Event.settle 1 (Outcome.parsed (Json.obj [("answer", Json.str "x")]))]).messages
      = [⟨"a", Role.user⟩, ⟨"b", Role.user⟩, ⟨"Thinking...", Role.loading⟩, ⟨"x", Role.bot⟩]
    ∧ (run initial [Event.edit "a", Event.submit, Event.edit "b", Event.submit,
        Event.settle 1 (Outcome.parsed (Json.obj [("answer", Json.str "x")]))]).messages
      ≠ removeMostRecentLoading
          (run initial [Event.edit "a", Event.submit, Event.edit "b",
            Event.submit]).messages ++ [⟨"x", Role.bot⟩] := by
  refine ⟨by decide, by decide, by decide⟩

/-- C9, amended: the message list is append-only except for removal of the
oldest loading placeholders: for every event, the list after the event is the
list before it with loading messages removed from the front of the loading
messages (the first one in list order first), followed by the new messages;
so the user and bot messages before the event are a prefix of those after
it; and a settle step of a request in flight removes the first loading
message and appends one bot message. -/
theorem append_only_oldest_loading (w : Widget) (ev : Event) :
    (∃ k added, (step w ev).messages =
        Nat.iterate removeFirstLoading k w.messages ++ added)
      ∧ settledMessages w.messages <+: settledMessages (step w ev).messages
      ∧ ∀ i o, ev = Event.settle i o → i < w.inFlight.length →
          ∃ k m, 1 ≤ k ∧ m.cls = Role.bot ∧
            (step w ev).messages = Nat.iterate removeFirstLoading k w.messages ++ [m] := by
  have hset : ∀ i o, ev = Event.settle i o → i < w.inFlight.length →
      ∃ k m, 1 ≤ k ∧ m.cls = Role.bot ∧
        (step w ev).messages = Nat.iterate removeFirstLoading k w.messages ++ [m] := by
    intro i o hev hi
    subst hev
    obtain ⟨k, m, hk, _, hm, hmsg⟩ :=
      submitResume_messages o { w with inFlight := w.inFlight.eraseIdx i }
    exact ⟨k, m, hk, hm, by simpa [step, hi] using hmsg⟩
  have key : ∃ k added, (step w ev).messages =
      Nat.iterate removeFirstLoading k w.messages ++ added := by
    have hsub : ∃ k added, (submitListener w).messages =
        Nat.iterate removeFirstLoading k w.messages ++ added := by
      rcases submitListener_cases w with h1 | ⟨q, h1, _⟩
      · exact ⟨0, [], by simp [h1]⟩
      · exact ⟨0, _, h1⟩
    cases ev with
    | submit => exact hsub
    | keydown e =>
      by_cases hk : e.key = "Enter"
      · simpa [step, keydownListener, dispatchSubmit, hk] using hsub
      · exact ⟨0, [], by simp [step, keydownListener, hk]⟩
    | edit v => exact ⟨0, [], by simp [step]⟩
    | settle i o =>
      by_cases hi : i < w.inFlight.length
      · obtain ⟨k, m, _, _, hmsg⟩ := hset i o rfl hi
        exact ⟨k, [m], hmsg⟩
      · exact ⟨0, [], by simp [step, hi]⟩
  refine ⟨key, ?_, hset⟩
  obtain ⟨k, added, h⟩ := key
  rw [h]
  have h2 : settledMessages (Nat.iterate removeFirstLoading k w.messages ++ added) =
      settledMessages w.messages ++ settledMessages added := by
    rw [← settledMessages_iterate k w.messages]
    simp [settledMessages]
  rw [h2]
  exact List.prefix_append _ _

/-- Witness of amended C9: with the list `[user a, loading, user b, loading]`
and two requests in flight, the answer to the second request removes loading
messages from the front and appends one bot message. -/
theorem append_only_oldest_loading_witness :
    ∃ k m, 1 ≤ k ∧ m.cls = Role.bot ∧
      (step
          { initial with
            messages := [⟨"a", Role.user⟩, ⟨"Thinking...", Role.loading⟩,
              ⟨"b", Role.user⟩, ⟨"Thinking...", Role.loading⟩]
            inFlight := [chatRequest "a", chatRequest "b"] }
          (Event.settle 1 (Outcome.parsed (Json.obj [("answer", Json.str "x")])))).messages =
        Nat.iterate removeFirstLoading k
          [⟨"a", Role.user⟩, ⟨"Thinking...", Role.loading⟩,
            ⟨"b", Role.user⟩, ⟨"Thinking...", Role.loading⟩] ++ [m] :=
  (append_only_oldest_loading
    { initial with
      messages := [⟨"a", Role.user⟩, ⟨"Thinking...", Role.loading⟩,
        ⟨"b", Role.user⟩, ⟨"Thinking...", Role.loading⟩]
      inFlight := [chatRequest "a", chatRequest "b"] }
    (Event.settle 1 (Outcome.parsed (Json.obj [("answer", Json.str "x")])))).2.2
    1 (Outcome.parsed (Json.obj [("answer", Json.str "x")])) rfl (by decide)

/-- C10, at the failing input: from the freshly loaded page, two overlapping
submissions followed by one response whose body is `null` leave no loading
message although one request is still in flight: the one settle step removed
both loading messages. -/
theorem null_payload_removes_two_loading :
    loadingCount
        (run initial [Event.edit "a", Event.submit, Event.edit "b", Event.submit]).messages = 2
      ∧ (run initial [Event.edit "a", Event.submit, Event.edit "b", Event.submit,
          Event.settle 0 (Outcome.parsed Json.null)]).messages =
        [⟨"a", Role.user⟩, ⟨"b", Role.user⟩,
          ⟨"Network error. See console for details.", Role.bot⟩]
      ∧ loadingCount
        (run initial [Event.edit "a", Event.submit, Event.edit "b", Event.submit,
          Event.settle 0 (Outcome.parsed Json.null)]).messages = 0
      ∧ (run initial [Event.edit "a", Event.submit, Event.edit "b", Event.submit,
          Event.settle 0 (Outcome.parsed Json.null)]).inFlight.length = 1 := by
  refine ⟨by decide, by decide, by decide, by decide⟩

end PersonalBrain
